import Mathlib

/-!
Verification of the `simretina.retina` wrapper module.

The module wraps an externally-owned, biologically-inspired retina model
(parvo/magno channel decomposition).  We embed the module shallowly:

* numpy arrays become `NDArray` (a shape vector plus row-major flat data,
  which is numpy's actual memory model);
* the opaque external retina handle becomes `Retina`, a record holding the
  constructor argument, two abstract response functions (the library's
  parvo/magno behaviour as a function of the accumulated frame buffer,
  quantified over in the theorems), the accumulated buffer itself, and an
  event trace recording the mutating calls made on the handle;
* Python exceptions become `Except String`.

Each wrapper function (`init_retina`, `clear_buffers`, `get_opl_frame`,
`grey2color`, `get_opl_frames`) is translated directly from the source.
-/

/-- An n-dimensional numeric array: a shape vector and the row-major flat
data, mirroring numpy's layout.  `Int` entries stand for the numeric
pixel values. -/
structure NDArray where
  shape : List Nat
  data : List Int
deriving DecidableEq, Repr

/-- Number of dimensions, numpy's `ndim`. -/
def NDArray.ndim (a : NDArray) : Nat := a.shape.length

/-- Embedding of `np.tile(frame, (3, 1, 1))` on a 2-D input: the array is
promoted to rank 3 and repeated 3 times along the new leading axis, so the
flat data is three copies of the original data. -/
def np_tile311 (a : NDArray) : NDArray :=
  ⟨3 :: a.shape, a.data ++ a.data ++ a.data⟩

/-- Embedding of `np.transpose(t, (1, 2, 0))` on a rank-3 array of shape
`(d0, d1, d2)`: the result has shape `(d1, d2, d0)` and its element at
position `(i, j, k)` is the input element at `(k, i, j)`.  Row-major flat
index `n` of the output decodes as `k = n % d0`, `j = (n / d0) % d2`,
`i = n / (d2 * d0)`.  On other ranks the array is returned unchanged
(that case never arises in the wrapper). -/
def np_transpose120 (a : NDArray) : NDArray :=
  match a.shape with
  | [d0, d1, d2] =>
    ⟨[d1, d2, d0],
      (List.range (d1 * d2 * d0)).map (fun n =>
        a.data.getD (((n % d0) * d1 + n / (d2 * d0)) * d2 + (n / d0) % d2) 0)⟩
  | _ => a

/-- The success-path value of `grey2color`:
`np.transpose(np.tile(frame, (3, 1, 1)), (1, 2, 0))`. -/
def grey2colorFn (frame : NDArray) : NDArray :=
  np_transpose120 (np_tile311 frame)

/-- Translation of `grey2color`: raises `ValueError` when the input is not
2-dimensional, otherwise duplicates the grey frame into each of 3 color
channels. -/
def grey2color (frame : NDArray) : Except String NDArray :=
  if frame.ndim ≠ 2 then .error "Input frame is not a grey frame."
  else .ok (grey2colorFn frame)

/-- Channel extraction `a[:, :, c]` from a rank-3 array of shape
`(d0, d1, d2)`: the result has shape `(d0, d1)` and flat element `n` is the
input flat element `n * d2 + c`.  Used to state the round-trip property of
`grey2color`. -/
def extractChannel (a : NDArray) (c : Nat) : NDArray :=
  match a.shape with
  | [d0, d1, d2] =>
    ⟨[d0, d1], (List.range (d0 * d1)).map (fun n => a.data.getD (n * d2 + c) 0)⟩
  | _ => a

lemma range_map_getD (l : List Int) :
    (List.range l.length).map (fun n => l.getD n 0) = l := by
  apply List.ext_getElem
  · simp
  · intro i h1 h2
    simp only [List.getElem_map, List.getElem_range]
    exact List.getD_eq_getElem l 0 h2

lemma grey2color_of_ndim2 (a : NDArray) (h : a.ndim = 2) :
    grey2color a = .ok (grey2colorFn a) := by
  simp [grey2color, h]

lemma grey2colorFn_shape (a : NDArray) (H W : Nat) (hs : a.shape = [H, W]) :
    (grey2colorFn a).shape = [H, W, 3] := by
  simp [grey2colorFn, np_tile311, np_transpose120, hs]

lemma getD_triple (l : List Int) (k n : Nat) (hk : k < 3) (hn : n < l.length) :
    (l ++ l ++ l).getD (k * l.length + n) 0 = l.getD n 0 := by
  interval_cases k
  · have e : 0 * l.length + n = n := by omega
    rw [e, List.getD_append _ _ _ _ (by simp only [List.length_append]; omega),
      List.getD_append _ _ _ _ hn]
  · rw [List.getD_append _ _ _ _ (by simp only [List.length_append]; omega),
      List.getD_append_right _ _ _ _ (by omega)]
    congr 1
    omega
  · rw [List.getD_append_right _ _ _ _ (by simp only [List.length_append]; omega)]
    simp only [List.length_append]
    congr 1
    omega

lemma grey2colorFn_data_getD (a : NDArray) (H W : Nat) (hs : a.shape = [H, W])
    (hd : a.data.length = H * W) (n c : Nat) (hn : n < H * W) (hc : c < 3) :
    (grey2colorFn a).data.getD (n * 3 + c) 0 = a.data.getD n 0 := by
  have hidx : n * 3 + c < H * W * 3 := by omega
  have hdata : (grey2colorFn a).data =
      (List.range (H * W * 3)).map (fun m =>
        (a.data ++ a.data ++ a.data).getD
          (((m % 3) * H + m / (W * 3)) * W + (m / 3) % W) 0) := by
    simp [grey2colorFn, np_tile311, np_transpose120, hs]
  rw [hdata]
  have hlen : ((List.range (H * W * 3)).map (fun m =>
      (a.data ++ a.data ++ a.data).getD
        (((m % 3) * H + m / (W * 3)) * W + (m / 3) % W) 0)).length = H * W * 3 := by
    simp
  rw [List.getD_eq_getElem _ 0 (by rw [hlen]; exact hidx)]
  simp only [List.getElem_map, List.getElem_range]
  have hW : 0 < W := by
    rcases Nat.eq_zero_or_pos W with h0 | h0
    · subst h0
      simp at hn
    · exact h0
  have hdiv3 : (n * 3 + c) / 3 = n := by omega
  have hmod3 : (n * 3 + c) % 3 = c := by omega
  have hdivW3 : (n * 3 + c) / (W * 3) = n / W := by
    rw [Nat.mul_comm W 3, ← Nat.div_div_eq_div_mul, hdiv3]
  have hmodW : ((n * 3 + c) / 3) % W = n % W := by rw [hdiv3]
  rw [hmod3, hdivW3, hmodW]
  have hindex : (c * H + n / W) * W + n % W = c * (H * W) + n := by
    have hdm := Nat.div_add_mod n W
    calc (c * H + n / W) * W + n % W
        = c * (H * W) + (W * (n / W) + n % W) := by ring
      _ = c * (H * W) + n := by rw [hdm]
  rw [hindex, ← hd]
  exact getD_triple a.data c n hc (by omega)

lemma extractChannel_grey2colorFn (a : NDArray) (H W : Nat)
    (hs : a.shape = [H, W]) (hd : a.data.length = H * W) (c : Nat) (hc : c < 3) :
    extractChannel (grey2colorFn a) c = a := by
  have hshape := grey2colorFn_shape a H W hs
  have : extractChannel (grey2colorFn a) c =
      ⟨[H, W], (List.range (H * W)).map (fun n => (grey2colorFn a).data.getD (n * 3 + c) 0)⟩ := by
    rw [extractChannel.eq_def, hshape]
  rw [this]
  have hmap : (List.range (H * W)).map (fun n => (grey2colorFn a).data.getD (n * 3 + c) 0) =
      (List.range (H * W)).map (fun n => a.data.getD n 0) := by
    apply List.map_congr_left
    intro n hn
    rw [List.mem_range] at hn
    exact grey2colorFn_data_getD a H W hs hd n c hn hc
  rw [hmap, ← hd, range_map_getD]
  cases a with
  | mk sh dt => simp_all

/-- Events recording the mutating calls the wrapper makes on a retina
handle, most recent last. -/
inductive REvent where
  | run (frame : NDArray)
  | clear
deriving DecidableEq, Repr

/-- The external library's stateful retina model handle.  `ctorArg` records
the `(width, height)`-style pair the constructor received; `parvoFn` and
`magnoFn` are the library's (otherwise opaque) channel responses as a
function of the accumulated frame buffer; `buffer` is the accumulated
temporal state (the frames fed since the last clear); `trace` logs the
mutating calls made on the handle. -/
structure Retina where
  ctorArg : Nat × Nat
  parvoFn : List NDArray → NDArray
  magnoFn : List NDArray → NDArray
  buffer : List NDArray
  trace : List REvent

/-- The library's `retina.run(frame)`: feeds one frame, mutating the
handle's adaptation state. -/
def Retina.run (r : Retina) (frame : NDArray) : Retina :=
  { r with buffer := r.buffer ++ [frame], trace := r.trace ++ [REvent.run frame] }

/-- The library's `retina.getParvo()`: pure read of the parvo channel for
the current accumulated state. -/
def Retina.getParvo (r : Retina) : NDArray := r.parvoFn r.buffer

/-- The library's `retina.getMagno()`: pure read of the magno channel for
the current accumulated state. -/
def Retina.getMagno (r : Retina) : NDArray := r.magnoFn r.buffer

/-- The external library surface: how it builds a handle's channel
responses from the constructor argument.  Quantifying theorems over this
keeps the library opaque. -/
structure Bioinspired where
  parvoOf : Nat × Nat → List NDArray → NDArray
  magnoOf : Nat × Nat → List NDArray → NDArray

/-- The library's `bioinspired.createRetina(p)`: a fresh handle recording
its constructor argument, with empty buffer and trace. -/
def Bioinspired.createRetina (lib : Bioinspired) (p : Nat × Nat) : Retina :=
  ⟨p, lib.parvoOf p, lib.magnoOf p, [], []⟩

/-- Translation of `init_retina`: raises `ValueError` unless the size
descriptor has exactly two elements, otherwise passes the reversed pair
`(size[1], size[0])` to the library constructor. -/
def init_retina (lib : Bioinspired) (size : List Nat) : Except String Retina :=
  if size.length ≠ 2 then .error "Invalid size setting."
  else .ok (lib.createRetina (size.getD 1 0, size.getD 0 0))

/-- Translation of `clear_buffers`: resets the handle's temporal state. -/
def clear_buffers (retina : Retina) : Retina :=
  { retina with buffer := [], trace := retina.trace ++ [REvent.clear] }

/-- Possible return values of `get_opl_frame`: an ordered pair of frames,
a single frame, or Python's implicit `None` when no dispatch branch
matches. -/
inductive OplResult where
  | pair (parvo magno : NDArray)
  | single (frame : NDArray)
  | pyNone
deriving DecidableEq, Repr

/-- Translation of `get_opl_frame`: runs the frame through the handle,
fetches both channels, applies `grey2color` to the parvo output only when
`color_mode` is `"grey"` and to the magno output unconditionally, then
dispatches on the two boolean flags exactly as the source's
`if`/`elif`/`elif` chain does (falling through to `None` when both flags
are false).  The returned `Retina` is the handle after the call; a raised
`ValueError` from `grey2color` propagates as `.error`. -/
def get_opl_frame (retina : Retina) (frame : NDArray)
    (get_parvo get_magno : Bool) (color_mode : String) :
    Except String OplResult × Retina :=
  let retina := retina.run frame
  let parvo_frame := retina.getParvo
  let magno_frame := retina.getMagno
  match (if color_mode = "grey" then grey2color parvo_frame else .ok parvo_frame) with
  | .error e => (.error e, retina)
  | .ok parvo_frame =>
    match grey2color magno_frame with
    | .error e => (.error e, retina)
    | .ok magno_frame =>
      if get_parvo = false ∧ get_magno = true then (.ok (.single magno_frame), retina)
      else if get_parvo = true ∧ get_magno = false then (.ok (.single parvo_frame), retina)
      else if get_parvo = true ∧ get_magno = true then (.ok (.pair parvo_frame magno_frame), retina)
      else (.ok .pyNone, retina)

/-- Argument of `get_opl_frames`: either a proper Python list of frames or
a sized non-list sequence (e.g. a tuple), so the source's
`isinstance(frames, list)` test is expressible. -/
inductive FramesArg where
  | pylist (l : List NDArray)
  | pytuple (l : List NDArray)
deriving DecidableEq, Repr

/-- Python's `len(frames)` on the sequence argument. -/
def framesLen : FramesArg → Nat
  | .pylist l => l.length
  | .pytuple l => l.length

/-- Python's `isinstance(frames, list)`. -/
def isList : FramesArg → Bool
  | .pylist _ => true
  | .pytuple _ => false

/-- The underlying element list of the sequence argument. -/
def toFrameList : FramesArg → List NDArray
  | .pylist l => l
  | .pytuple l => l

/-- Possible return values of `get_opl_frames`: a pair of lists, a single
list, or Python's implicit `None` when both flags are false. -/
inductive FramesResult where
  | pairList (parvo magno : List NDArray)
  | singleList (l : List NDArray)
  | pyNone
deriving DecidableEq, Repr

/-- The `for frame in frames` loop body of `get_opl_frames`: each frame
goes through `get_opl_frame` on the evolving handle and the outputs are
appended to the accumulator lists according to the flags.  The `.error`
fallback arms model the `TypeError` Python would raise if `out_frames`
did not have the tuple shape the branch indexes into; the dispatch of
`get_opl_frame` makes them unreachable. -/
def opl_loop (retina : Retina) (fs : List NDArray) (get_parvo get_magno : Bool)
    (color_mode : String) (parvo_frames magno_frames : List NDArray) :
    Except String (List NDArray × List NDArray) × Retina :=
  match fs with
  | [] => (.ok (parvo_frames, magno_frames), retina)
  | frame :: rest =>
    match get_opl_frame retina frame get_parvo get_magno color_mode with
    | (.error e, retina) => (.error e, retina)
    | (.ok out_frames, retina) =>
      if get_parvo = true ∧ get_magno = true then
        match out_frames with
        | .pair p m =>
          opl_loop retina rest get_parvo get_magno color_mode
            (parvo_frames ++ [p]) (magno_frames ++ [m])
        | _ => (.error "tuple indexing on a non-tuple", retina)
      else if get_parvo = true ∧ get_magno = false then
        match out_frames with
        | .single p =>
          opl_loop retina rest get_parvo get_magno color_mode
            (parvo_frames ++ [p]) magno_frames
        | _ => (.error "tuple indexing on a non-tuple", retina)
      else if get_parvo = false ∧ get_magno = true then
        match out_frames with
        | .single m =>
          opl_loop retina rest get_parvo get_magno color_mode
            parvo_frames (magno_frames ++ [m])
        | _ => (.error "tuple indexing on a non-tuple", retina)
      else
        opl_loop retina rest get_parvo get_magno color_mode parvo_frames magno_frames

/-- Translation of `get_opl_frames`: validates the sequence argument,
optionally clears the buffers, folds `get_opl_frame` over the frames in
input order, and returns lists according to the same flag dispatch as the
per-frame operation. -/
def get_opl_frames (retina : Retina) (frames : FramesArg)
    (get_parvo get_magno reopen_eye : Bool) (color_mode : String) :
    Except String FramesResult × Retina :=
  if framesLen frames = 0 ∨ isList frames = false then
    (.error "No video frame is entered", retina)
  else
    let retina := if reopen_eye = true then clear_buffers retina else retina
    match opl_loop retina (toFrameList frames) get_parvo get_magno color_mode [] [] with
    | (.error e, retina) => (.error e, retina)
    | (.ok (parvo_frames, magno_frames), retina) =>
      if get_parvo = true ∧ get_magno = true then
        (.ok (.pairList parvo_frames magno_frames), retina)
      else if get_parvo = true ∧ get_magno = false then
        (.ok (.singleList parvo_frames), retina)
      else if get_parvo = false ∧ get_magno = true then
        (.ok (.singleList magno_frames), retina)
      else (.ok .pyNone, retina)

/-- The value `get_opl_frame`'s flag dispatch returns, given the two
processed channel frames. -/
def oplDispatch (get_parvo get_magno : Bool) (p m : NDArray) : OplResult :=
  if get_parvo = false ∧ get_magno = true then .single m
  else if get_parvo = true ∧ get_magno = false then .single p
  else if get_parvo = true ∧ get_magno = true then .pair p m
  else .pyNone

/-- The parvo output after the color-mode policy: converted by
`grey2color` only in `"grey"` mode, otherwise exactly as fetched. -/
def procParvo (mode : String) (a : NDArray) : NDArray :=
  if mode = "grey" then grey2colorFn a else a

/-- The successive buffer states of a handle that starts at `buf` and is
fed the frames `fs` one at a time, in order. -/
def bufferStates (buf : List NDArray) (fs : List NDArray) : List (List NDArray) :=
  match fs with
  | [] => []
  | f :: rest => (buf ++ [f]) :: bufferStates (buf ++ [f]) rest

/-- The parvo outputs a sequential in-order run over `fs` must produce:
the i-th element is the (color-mode processed) parvo response to the
buffer holding exactly the frames up to and including frame i. -/
def expectedParvos (pF : List NDArray → NDArray) (mode : String)
    (buf fs : List NDArray) : List NDArray :=
  (bufferStates buf fs).map (fun b => procParvo mode (pF b))

/-- The magno outputs a sequential in-order run over `fs` must produce:
always 3-channel via `grey2color`. -/
def expectedMagnos (mF : List NDArray → NDArray)
    (buf fs : List NDArray) : List NDArray :=
  (bufferStates buf fs).map (fun b => grey2colorFn (mF b))

lemma length_bufferStates (buf fs : List NDArray) :
    (bufferStates buf fs).length = fs.length := by
  induction fs generalizing buf with
  | nil => simp [bufferStates]
  | cons f rest ih => simp [bufferStates, ih]

lemma length_expectedParvos (pF : List NDArray → NDArray) (mode : String)
    (buf fs : List NDArray) : (expectedParvos pF mode buf fs).length = fs.length := by
  simp [expectedParvos, length_bufferStates]

lemma length_expectedMagnos (mF : List NDArray → NDArray)
    (buf fs : List NDArray) : (expectedMagnos mF buf fs).length = fs.length := by
  simp [expectedMagnos, length_bufferStates]

lemma expectedParvos_cons (pF : List NDArray → NDArray) (mode : String)
    (buf : List NDArray) (f : NDArray) (rest : List NDArray) :
    expectedParvos pF mode buf (f :: rest) =
      procParvo mode (pF (buf ++ [f])) :: expectedParvos pF mode (buf ++ [f]) rest := by
  simp [expectedParvos, bufferStates]

lemma expectedMagnos_cons (mF : List NDArray → NDArray)
    (buf : List NDArray) (f : NDArray) (rest : List NDArray) :
    expectedMagnos mF buf (f :: rest) =
      grey2colorFn (mF (buf ++ [f])) :: expectedMagnos mF (buf ++ [f]) rest := by
  simp [expectedMagnos, bufferStates]

lemma get_opl_frame_eq (r : Retina) (f : NDArray) (gp gm : Bool) (mode : String)
    (hm : (r.magnoFn (r.buffer ++ [f])).ndim = 2)
    (hp : mode = "grey" → (r.parvoFn (r.buffer ++ [f])).ndim = 2) :
    get_opl_frame r f gp gm mode =
      (.ok (oplDispatch gp gm (procParvo mode (r.parvoFn (r.buffer ++ [f])))
        (grey2colorFn (r.magnoFn (r.buffer ++ [f])))), r.run f) := by
  simp only [get_opl_frame, Retina.run, Retina.getParvo, Retina.getMagno]
  by_cases hmode : mode = "grey"
  · rw [if_pos hmode, grey2color_of_ndim2 _ (hp hmode), grey2color_of_ndim2 _ hm]
    cases gp <;> cases gm <;> simp [oplDispatch, procParvo, hmode, Retina.run]
  · rw [if_neg hmode, grey2color_of_ndim2 _ hm]
    cases gp <;> cases gm <;> simp [oplDispatch, procParvo, hmode, Retina.run]

lemma opl_loop_spec (fs : List NDArray) : ∀ (r : Retina) (gp gm : Bool) (mode : String)
    (pacc macc : List NDArray),
    (∀ b, (r.magnoFn b).ndim = 2) →
    (mode = "grey" → ∀ b, (r.parvoFn b).ndim = 2) →
    opl_loop r fs gp gm mode pacc macc =
      (.ok (pacc ++ (if gp = true then expectedParvos r.parvoFn mode r.buffer fs else []),
            macc ++ (if gm = true then expectedMagnos r.magnoFn r.buffer fs else [])),
       { r with buffer := r.buffer ++ fs, trace := r.trace ++ fs.map REvent.run }) := by
  induction fs with
  | nil =>
    intro r gp gm mode pacc macc Hm Hp
    simp [opl_loop, bufferStates, expectedParvos, expectedMagnos]
  | cons f rest ih =>
    intro r gp gm mode pacc macc Hm Hp
    rw [opl_loop, get_opl_frame_eq r f gp gm mode (Hm _) (fun h => Hp h _)]
    cases gp <;> cases gm
    · simp only [oplDispatch]
      norm_num
      rw [ih (r.run f) false false mode pacc macc Hm Hp]
      simp [Retina.run, expectedParvos, expectedMagnos, bufferStates]
    · simp only [oplDispatch]
      norm_num
      rw [ih (r.run f) false true mode pacc
        (macc ++ [grey2colorFn (r.magnoFn (r.buffer ++ [f]))]) Hm Hp]
      simp [Retina.run, expectedParvos_cons, expectedMagnos_cons]
    · simp only [oplDispatch]
      norm_num
      rw [ih (r.run f) true false mode
        (pacc ++ [procParvo mode (r.parvoFn (r.buffer ++ [f]))]) macc Hm Hp]
      simp [Retina.run, expectedParvos_cons, expectedMagnos_cons]
    · simp only [oplDispatch]
      norm_num
      rw [ih (r.run f) true true mode
        (pacc ++ [procParvo mode (r.parvoFn (r.buffer ++ [f]))])
        (macc ++ [grey2colorFn (r.magnoFn (r.buffer ++ [f]))]) Hm Hp]
      simp [Retina.run, expectedParvos_cons, expectedMagnos_cons]

lemma get_opl_frames_eq (r : Retina) (fs : List NDArray) (gp gm reopen : Bool)
    (mode : String) (hne : fs ≠ [])
    (Hm : ∀ b, (r.magnoFn b).ndim = 2)
    (Hp : mode = "grey" → ∀ b, (r.parvoFn b).ndim = 2) :
    get_opl_frames r (.pylist fs) gp gm reopen mode =
      (.ok (if gp = true ∧ gm = true then
              FramesResult.pairList
                (expectedParvos r.parvoFn mode (if reopen = true then [] else r.buffer) fs)
                (expectedMagnos r.magnoFn (if reopen = true then [] else r.buffer) fs)
            else if gp = true ∧ gm = false then
              FramesResult.singleList
                (expectedParvos r.parvoFn mode (if reopen = true then [] else r.buffer) fs)
            else if gp = false ∧ gm = true then
              FramesResult.singleList
                (expectedMagnos r.magnoFn (if reopen = true then [] else r.buffer) fs)
            else FramesResult.pyNone),
       { r with buffer := (if reopen = true then [] else r.buffer) ++ fs,
                trace := r.trace ++ (if reopen = true then [REvent.clear] else [])
                  ++ fs.map REvent.run }) := by
  unfold get_opl_frames
  have hlen : ¬(framesLen (.pylist fs) = 0 ∨ isList (.pylist fs) = false) := by
    simp [framesLen, isList, hne]
  rw [if_neg hlen]
  cases reopen
  · simp only [Bool.false_eq_true, if_false, reduceIte, toFrameList]
    rw [opl_loop_spec fs r gp gm mode [] [] Hm Hp]
    cases gp <;> cases gm <;> simp
  · simp only [if_true, reduceIte, toFrameList]
    rw [opl_loop_spec fs (clear_buffers r) gp gm mode [] [] Hm Hp]
    cases gp <;> cases gm <;> simp [clear_buffers]

/-- A concrete 1x2 grey frame used by the evaluation witnesses. -/
def sampleFrame : NDArray := ⟨[1, 2], [10, 20]⟩

/-- A second concrete 1x2 grey frame used by the evaluation witnesses. -/
def sampleFrame2 : NDArray := ⟨[1, 2], [30, 40]⟩

/-- A concrete retina handle used by the evaluation witnesses: both channel
responses are 1x2 grey frames, the buffer-length dependence making the
handle visibly stateful. -/
def sampleRetina : Retina :=
  ⟨(2, 1),
   fun b => ⟨[1, 2], [Int.ofNat b.length, 7]⟩,
   fun b => ⟨[1, 2], [5, Int.ofNat b.length]⟩,
   [], []⟩

/-- A concrete library surface used by the evaluation witnesses. -/
def sampleLib : Bioinspired :=
  ⟨fun _ _ => ⟨[1, 2], [1, 2]⟩, fun _ _ => ⟨[1, 2], [3, 4]⟩⟩

/-- C1: for every retina handle and frame processed by `get_opl_frame`, the
magno output is always converted to 3 channels by `grey2color` regardless
of the `color_mode` argument, while the parvo output goes through
`grey2color` exactly when `color_mode` is `"grey"` and otherwise is
returned exactly as fetched from the handle (`getParvo` after `run`).
The rank hypotheses state the external library's contract that the raw
channel reads are single-channel 2-D arrays, which `grey2color` requires. -/
theorem get_opl_frame_color_mode_policy (r : Retina) (f : NDArray) (mode : String)
    (hm : ((Retina.run r f).getMagno).ndim = 2)
    (hp : mode = "grey" → ((Retina.run r f).getParvo).ndim = 2) :
    (get_opl_frame r f true true mode).1 =
      .ok (.pair (if mode = "grey" then grey2colorFn ((Retina.run r f).getParvo)
                  else (Retina.run r f).getParvo)
            (grey2colorFn ((Retina.run r f).getMagno)))
    ∧ (get_opl_frame r f true false mode).1 =
      .ok (.single (if mode = "grey" then grey2colorFn ((Retina.run r f).getParvo)
                    else (Retina.run r f).getParvo))
    ∧ (get_opl_frame r f false true mode).1 =
      .ok (.single (grey2colorFn ((Retina.run r f).getMagno))) := by
  have hm' : (r.magnoFn (r.buffer ++ [f])).ndim = 2 := hm
  have hp' : mode = "grey" → (r.parvoFn (r.buffer ++ [f])).ndim = 2 := hp
  refine ⟨?_, ?_, ?_⟩ <;>
  · rw [get_opl_frame_eq _ _ _ _ _ hm' hp']
    simp [oplDispatch, procParvo, Retina.run, Retina.getParvo, Retina.getMagno]

/-- Evaluation witness for the color-mode policy, at a concrete handle and
frame in `"color"` mode: the parvo component of the pair is the raw
`getParvo` read, the magno component is `grey2color` of the raw read. -/
theorem get_opl_frame_color_mode_policy_witness :
    (get_opl_frame sampleRetina sampleFrame true true "color").1 =
      .ok (.pair ((Retina.run sampleRetina sampleFrame).getParvo)
            (grey2colorFn ((Retina.run sampleRetina sampleFrame).getMagno))) := by
  have h := (get_opl_frame_color_mode_policy sampleRetina sampleFrame "color"
    (by decide) (fun hh => absurd hh (by decide))).1
  simpa using h

/-- C2: the flag dispatch of `get_opl_frame`: with both flags true the
result is the ordered pair `(parvo_frame, magno_frame)`; with only
`get_parvo` it is the single parvo frame (not a pair); with only
`get_magno` it is the single magno frame — the same two frames in all
three cases. -/
theorem get_opl_frame_return_shape (r : Retina) (f : NDArray) (mode : String)
    (hm : ((Retina.run r f).getMagno).ndim = 2)
    (hp : mode = "grey" → ((Retina.run r f).getParvo).ndim = 2) :
    ∃ parvo_frame magno_frame : NDArray,
      (get_opl_frame r f true true mode).1 = .ok (.pair parvo_frame magno_frame)
      ∧ (get_opl_frame r f true false mode).1 = .ok (.single parvo_frame)
      ∧ (get_opl_frame r f false true mode).1 = .ok (.single magno_frame) := by
  have hm' : (r.magnoFn (r.buffer ++ [f])).ndim = 2 := hm
  have hp' : mode = "grey" → (r.parvoFn (r.buffer ++ [f])).ndim = 2 := hp
  refine ⟨procParvo mode (r.parvoFn (r.buffer ++ [f])),
    grey2colorFn (r.magnoFn (r.buffer ++ [f])), ?_, ?_, ?_⟩ <;>
  · rw [get_opl_frame_eq _ _ _ _ _ hm' hp']
    simp [oplDispatch]

/-- Evaluation witness for the flag dispatch at a concrete handle, frame
and mode. -/
theorem get_opl_frame_return_shape_witness :
    ∃ parvo_frame magno_frame : NDArray,
      (get_opl_frame sampleRetina sampleFrame true true "grey").1 =
        .ok (.pair parvo_frame magno_frame)
      ∧ (get_opl_frame sampleRetina sampleFrame true false "grey").1 =
        .ok (.single parvo_frame)
      ∧ (get_opl_frame sampleRetina sampleFrame false true "grey").1 =
        .ok (.single magno_frame) :=
  get_opl_frame_return_shape sampleRetina sampleFrame "grey"
    (by decide) (fun _ => by decide)

/-- C3: for a 2-D array of shape `(H, W)`, `grey2color` succeeds and
produces an array of shape `(H, W, 3)` in which extracting any one of the
3 channels reproduces the input exactly.  The embedding is a pure
function, so the transform has no side effects and leaves its input
unmodified by construction. -/
theorem grey2color_roundtrip (a : NDArray) (H W c : Nat)
    (hs : a.shape = [H, W]) (hd : a.data.length = H * W) (hc : c < 3) :
    grey2color a = .ok (grey2colorFn a)
    ∧ (grey2colorFn a).shape = [H, W, 3]
    ∧ extractChannel (grey2colorFn a) c = a :=
  ⟨grey2color_of_ndim2 a (by simp [NDArray.ndim, hs]),
   grey2colorFn_shape a H W hs,
   extractChannel_grey2colorFn a H W hs hd c hc⟩

/-- Evaluation witness for the round trip on a concrete 1x2 grey frame
and channel 1. -/
theorem grey2color_roundtrip_witness :
    grey2color sampleFrame = .ok (grey2colorFn sampleFrame)
    ∧ (grey2colorFn sampleFrame).shape = [1, 2, 3]
    ∧ extractChannel (grey2colorFn sampleFrame) 1 = sampleFrame :=
  grey2color_roundtrip sampleFrame 1 2 1 (by decide) (by decide) (by decide)

/-- C4: `get_opl_frames` on a non-empty list processes the frames strictly
in input order, one at a time via `get_opl_frame` on the shared handle:
the i-th element of each output list is the channel response to the buffer
holding exactly the frames up to and including frame i (`expectedParvos` /
`expectedMagnos` over `bufferStates`), the output lists have length N and
preserve input order, the final handle buffer holds the frames appended in
input order, and the return is a pair of lists with both flags true and a
single list with exactly one flag true. -/
theorem get_opl_frames_order_and_shape (r : Retina) (fs : List NDArray)
    (reopen : Bool) (mode : String) (hne : fs ≠ [])
    (Hm : ∀ b, (r.magnoFn b).ndim = 2)
    (Hp : mode = "grey" → ∀ b, (r.parvoFn b).ndim = 2) :
    (get_opl_frames r (.pylist fs) true true reopen mode).1 =
      .ok (.pairList
        (expectedParvos r.parvoFn mode (if reopen = true then [] else r.buffer) fs)
        (expectedMagnos r.magnoFn (if reopen = true then [] else r.buffer) fs))
    ∧ (get_opl_frames r (.pylist fs) true false reopen mode).1 =
      .ok (.singleList
        (expectedParvos r.parvoFn mode (if reopen = true then [] else r.buffer) fs))
    ∧ (get_opl_frames r (.pylist fs) false true reopen mode).1 =
      .ok (.singleList
        (expectedMagnos r.magnoFn (if reopen = true then [] else r.buffer) fs))
    ∧ (expectedParvos r.parvoFn mode (if reopen = true then [] else r.buffer) fs).length
        = fs.length
    ∧ (expectedMagnos r.magnoFn (if reopen = true then [] else r.buffer) fs).length
        = fs.length
    ∧ (get_opl_frames r (.pylist fs) true true reopen mode).2.buffer =
        (if reopen = true then [] else r.buffer) ++ fs := by
  have h11 := get_opl_frames_eq r fs true true reopen mode hne Hm Hp
  have h10 := get_opl_frames_eq r fs true false reopen mode hne Hm Hp
  have h01 := get_opl_frames_eq r fs false true reopen mode hne Hm Hp
  refine ⟨?_, ?_, ?_, length_expectedParvos _ _ _ _, length_expectedMagnos _ _ _, ?_⟩
  · simp [h11]
  · simp [h10]
  · simp [h01]
  · simp [h11]

/-- Evaluation witness for the in-order sequence processing on a concrete
handle and a concrete 2-frame list. -/
theorem get_opl_frames_order_and_shape_witness :
    (get_opl_frames sampleRetina (.pylist [sampleFrame, sampleFrame2])
        true true true "color").1 =
      .ok (.pairList
        (expectedParvos sampleRetina.parvoFn "color"
          (if true = true then [] else sampleRetina.buffer) [sampleFrame, sampleFrame2])
        (expectedMagnos sampleRetina.magnoFn
          (if true = true then [] else sampleRetina.buffer) [sampleFrame, sampleFrame2])) :=
  (get_opl_frames_order_and_shape sampleRetina [sampleFrame, sampleFrame2] true "color"
    (by decide) (fun b => rfl) (fun hh => absurd hh (by decide))).1

/-- C5: with `reopen_eye = True` on a non-empty frame list, the
buffer-clear operation happens exactly once and before the first frame is
fed: the events appended to the handle trace are exactly one clear event
followed by the run events of the frames in input order. -/
theorem get_opl_frames_clear_once_before (r : Retina) (fs : List NDArray)
    (gp gm : Bool) (mode : String) (hne : fs ≠ [])
    (Hm : ∀ b, (r.magnoFn b).ndim = 2)
    (Hp : mode = "grey" → ∀ b, (r.parvoFn b).ndim = 2) :
    (get_opl_frames r (.pylist fs) gp gm true mode).2.trace =
      r.trace ++ REvent.clear :: fs.map REvent.run
    ∧ (REvent.clear :: fs.map REvent.run).count REvent.clear = 1 := by
  constructor
  · rw [get_opl_frames_eq r fs gp gm true mode hne Hm Hp]
    simp
  · have h0 : (fs.map REvent.run).count REvent.clear = 0 := by
      rw [List.count_eq_zero]
      intro h
      rcases List.mem_map.mp h with ⟨x, _, hx⟩
      exact REvent.noConfusion hx
    simp [List.count_cons, h0]

/-- Evaluation witness for the clear-once-before-first-frame property on
a concrete handle and 2-frame list. -/
theorem get_opl_frames_clear_once_before_witness :
    (get_opl_frames sampleRetina (.pylist [sampleFrame, sampleFrame2])
        true true true "color").2.trace =
      sampleRetina.trace ++ REvent.clear :: [sampleFrame, sampleFrame2].map REvent.run
    ∧ (REvent.clear :: [sampleFrame, sampleFrame2].map REvent.run).count REvent.clear = 1 :=
  get_opl_frames_clear_once_before sampleRetina [sampleFrame, sampleFrame2] true true
    "color" (by decide) (fun b => rfl) (fun hh => absurd hh (by decide))

/-- C6: `init_retina` on a 2-element `(h, w)` size of positive integers
does not raise and returns exactly the handle the library constructor
produces when given the reversed pair `(w, h) = (size[1], size[0])`. -/
theorem init_retina_reverses_size (lib : Bioinspired) (h w : Nat)
    (_hh : 0 < h) (_hw : 0 < w) :
    init_retina lib [h, w] = .ok (lib.createRetina (w, h)) := by
  simp [init_retina, List.getD]

/-- Evaluation witness for the size reversal at the concrete size (4, 3). -/
theorem init_retina_reverses_size_witness :
    init_retina sampleLib [4, 3] = .ok (sampleLib.createRetina (3, 4)) :=
  init_retina_reverses_size sampleLib 4 3 (by decide) (by decide)

/-- C7: `init_retina` raises the invalid-argument `ValueError` exactly
when the size descriptor does not have two elements; in the error case
the returned value carries no constructed handle, so the library
constructor was never reached. -/
theorem init_retina_arity_error (lib : Bioinspired) (size : List Nat) :
    init_retina lib size = .error "Invalid size setting." ↔ size.length ≠ 2 := by
  constructor
  · intro h
    by_contra hlen
    rw [init_retina, if_neg (not_not_intro hlen)] at h
    exact Except.noConfusion h
  · intro h
    simp [init_retina, h]

/-- C8: `grey2color` raises the invalid-argument `ValueError` exactly when
its input array does not have two dimensions; in the error case the
returned value carries no transformed array. -/
theorem grey2color_rank_error (a : NDArray) :
    grey2color a = .error "Input frame is not a grey frame." ↔ a.ndim ≠ 2 := by
  constructor
  · intro h
    by_contra hnd
    rw [grey2color, if_neg (not_not_intro hnd)] at h
    exact Except.noConfusion h
  · intro h
    simp [grey2color, h]

/-- C9: `get_opl_frames` on an empty sequence or a non-list argument
raises the invalid-argument `ValueError` and returns the handle
completely unchanged: no buffer clearing and no frame processing
happened. -/
theorem get_opl_frames_bad_arg (r : Retina) (arg : FramesArg)
    (gp gm reopen : Bool) (mode : String)
    (h : framesLen arg = 0 ∨ isList arg = false) :
    get_opl_frames r arg gp gm reopen mode = (.error "No video frame is entered", r) := by
  rw [get_opl_frames, if_pos h]

/-- Evaluation witness for the argument validation: a non-empty tuple
(sized but not a list) is rejected with the handle untouched. -/
theorem get_opl_frames_bad_arg_witness :
    get_opl_frames sampleRetina (.pytuple [sampleFrame]) true true true "color" =
      (.error "No video frame is entered", sampleRetina) :=
  get_opl_frames_bad_arg sampleRetina (.pytuple [sampleFrame]) true true true "color"
    (Or.inr rfl)

/-- C10: with both flags false, `get_opl_frame` still feeds the frame to
the handle — the returned handle is exactly `run` applied to it, with the
frame appended to the buffer — and returns Python's `None`, no dispatch
branch matching; likewise `get_opl_frames` with both flags false runs
every frame through the handle in order and returns `None` rather than
any list. -/
theorem get_opl_frame_both_false_runs (r : Retina) (f : NDArray)
    (fs : List NDArray) (reopen : Bool) (mode : String) (hne : fs ≠ [])
    (Hm : ∀ b, (r.magnoFn b).ndim = 2)
    (Hp : mode = "grey" → ∀ b, (r.parvoFn b).ndim = 2) :
    get_opl_frame r f false false mode = (.ok .pyNone, Retina.run r f)
    ∧ get_opl_frames r (.pylist fs) false false reopen mode =
      (.ok .pyNone,
       { r with buffer := (if reopen = true then [] else r.buffer) ++ fs,
                trace := r.trace ++ (if reopen = true then [REvent.clear] else [])
                  ++ fs.map REvent.run }) := by
  constructor
  · rw [get_opl_frame_eq r f false false mode (Hm _) (fun hh => Hp hh _)]
    simp [oplDispatch]
  · rw [get_opl_frames_eq r fs false false reopen mode hne Hm Hp]
    simp

/-- Evaluation witness for the both-flags-false behaviour on a concrete
handle, frame and 2-frame list. -/
theorem get_opl_frame_both_false_runs_witness :
    get_opl_frame sampleRetina sampleFrame false false "color" =
      (.ok .pyNone, Retina.run sampleRetina sampleFrame)
    ∧ get_opl_frames sampleRetina (.pylist [sampleFrame, sampleFrame2])
        false false false "color" =
      (.ok .pyNone,
       { sampleRetina with
          buffer := (if false = true then [] else sampleRetina.buffer)
            ++ [sampleFrame, sampleFrame2],
          trace := sampleRetina.trace ++ (if false = true then [REvent.clear] else [])
            ++ [sampleFrame, sampleFrame2].map REvent.run }) :=
  get_opl_frame_both_false_runs sampleRetina sampleFrame [sampleFrame, sampleFrame2]
    false "color" (by decide) (fun b => rfl) (fun hh => absurd hh (by decide))
